import Mathlib

/-!
Verification development for the RestEasy repository.

The repository has two source files:
  * `src/resteasy/__main__.py` — "Application Shell A": a Gtk `Application`
    subclass `MyApplication` whose `do_activate` creates and presents an
    `ApplicationWindow`, plus a `__main__` block that runs the application
    and exits with its return value.
  * `src/resteasy/view/dashboard.py` — "Window Shell B": a Qt `QMainWindow`
    subclass `Dashboard` whose constructor sets the window title, creates a
    `QPushButton`, connects the `pressed` signal of the button to `self.close`,
    installs the button as the central widget and shows the window.

The development below is a shallow embedding of those two files: windows and
applications are records, construction and signal emission are explicit state
transformers, fallible toolkit calls return `Except`, and the external world
(files, network, environment) is threaded explicitly where frame conditions
are at stake.
-/

set_option autoImplicit false

/-! ## Shell A: the Gtk embedding (`src/resteasy/__main__.py`) -/

/-- A Gtk top-level window: the identifier of the owning application (set when the
window is constructed with `application=self`), its title, and whether it has
been presented. -/
structure GtkWindow where
  application : Option String
  title : String
  visible : Bool
deriving DecidableEq, Repr

/-- The Gtk application object: its `application_id` and the list of top-level
windows registered to it. -/
structure GtkApp where
  application_id : String
  windows : List GtkWindow
deriving DecidableEq, Repr

/-- Process-wide GLib globals touched by the source: the human-readable
application name set by `GLib.set_application_name`. -/
structure GLibGlobals where
  application_name : Option String
deriving DecidableEq, Repr

/-- Splits a character list on `.` into its dot-separated elements. -/
def idElementsAux : List Char → List Char → List (List Char)
  | [], acc => [acc.reverse]
  | c :: rest, acc =>
      if c = '.' then acc.reverse :: idElementsAux rest []
      else idElementsAux rest (c :: acc)

/-- A character allowed inside an application-identifier element. -/
def validIdChar (c : Char) : Bool :=
  c.isAlpha || c.isDigit || c = '_' || c = '-'

/-- A valid application-identifier element: nonempty, not starting with a
digit, all characters allowed. -/
def validIdElement (cs : List Char) : Bool :=
  match cs with
  | [] => false
  | c :: _ => (!c.isDigit) && cs.all validIdChar

/-- Embeds the GLib application-identifier validity check (`g_application_id_is_valid`):
at most 255 characters, at least two dot-separated elements, every element
well-formed. The Gtk constructor requires a valid identifier. -/
def g_application_id_is_valid (s : String) : Bool :=
  let cs := s.toList
  decide (cs.length ≤ 255) &&
    (let es := idElementsAux cs []
     decide (2 ≤ es.length) && es.all validIdElement)

/-- Embeds `Gtk.Application.__init__(application_id=...)`: constructing the
application object fails on an invalid identifier and otherwise yields an
application with no windows. -/
def GtkApplicationNew (application_id : String) : Except String GtkApp :=
  if g_application_id_is_valid application_id then
    Except.ok { application_id := application_id, windows := [] }
  else
    Except.error ("invalid application id: " ++ application_id)

/-- Embeds `GLib.set_application_name(name)`: sets the process-wide application
name. -/
def GLibSetApplicationName (g : GLibGlobals) (name : String) : GLibGlobals :=
  { g with application_name := some name }

/-- Embeds `MyApplication.__init__`: `super().__init__(application_id=
"com.resteasy.RestEasy")` followed by `GLib.set_application_name("RestEasy")`;
a failure of the superclass constructor propagates. -/
def MyApplicationInit (g : GLibGlobals) : Except String (GtkApp × GLibGlobals) :=
  match GtkApplicationNew "com.resteasy.RestEasy" with
  | Except.error e => Except.error e
  | Except.ok app => Except.ok (app, GLibSetApplicationName g "RestEasy")

/-- Embeds `Gtk.ApplicationWindow(application=self, title=...)`: a new window owned
by the given application, not yet presented. -/
def GtkApplicationWindowNew (owner_id : String) (title : String) : GtkWindow :=
  { application := some owner_id, title := title, visible := false }

/-- Embeds `window.present()`: makes the window visible. -/
def GtkWindow.present (w : GtkWindow) : GtkWindow :=
  { w with visible := true }

/-- Embeds `MyApplication.do_activate`: constructs a new `ApplicationWindow` owned by
the application with title `"Hello, RestEasy!"` and presents it. The window
registers with the application on construction; the net effect on the
application state is appending the presented window. -/
def MyApplicationDoActivate (app : GtkApp) : GtkApp :=
  let window := GtkApplicationWindowNew app.application_id "Hello, RestEasy!"
  let window := window.present
  { app with windows := app.windows ++ [window] }

/-- Iterates `do_activate`: `n` successive invocations of `do_activate` on an application state. -/
def activateN (app : GtkApp) : Nat → GtkApp
  | 0 => app
  | n + 1 => MyApplicationDoActivate (activateN app n)

/-- Number of windows of the application that are currently shown. -/
def GtkApp.shownWindows (app : GtkApp) : Nat :=
  (app.windows.filter (fun w => w.visible)).length

/-- The GLib globals before the process starts: no application name set. -/
def initialGlobals : GLibGlobals := { application_name := none }

/-- The application object produced by `MyApplication()`. -/
def app0 : GtkApp := { application_id := "com.resteasy.RestEasy", windows := [] }

/-- Outcome of the `__main__` block: the arguments received by the `run`
call of the application, and the value handed to `sys.exit`. -/
structure ProcessOutcome where
  argsPassedToRun : List String
  exitCode : Int
deriving DecidableEq, Repr

/-- The `__main__` block: `app = MyApplication(); exit_status =
app.run(sys.argv); sys.exit(exit_status)`. The toolkit-provided `run` is abstract
(`runA`); the outcome records the arguments it was invoked with and the exit
status passed to `sys.exit`. -/
def shellAMain (runA : List String → Int) (argv : List String) : ProcessOutcome :=
  let exit_status := runA argv
  { argsPassedToRun := argv, exitCode := exit_status }

/-! ## Shell B: the Qt embedding (`src/resteasy/view/dashboard.py`) -/

/-- The actions a signal can be connected to in this program; the only slot
ever connected is the `close` method of the window itself. -/
inductive SlotAction where
  | closeSelf
deriving DecidableEq, Repr

/-- A `QPushButton`: its label text and the list of (signal name, slot)
connections made on it. -/
structure QPushButton where
  text : String
  connections : List (String × SlotAction)
deriving DecidableEq, Repr

/-- Embeds `QPushButton(label)`: a fresh button with no connections. -/
def QPushButtonNew (label : String) : QPushButton :=
  { text := label, connections := [] }

/-- Embeds `button.<signal>.connect(slot)`: records the connection on the button. -/
def QPushButton.connect (b : QPushButton) (sig : String) (slot : SlotAction) : QPushButton :=
  { b with connections := b.connections ++ [(sig, slot)] }

/-- The `Dashboard` main window: title, the optional central widget, whether
the window is shown, and whether it has been closed. -/
structure Dashboard where
  windowTitle : String
  centralWidget : Option QPushButton
  visible : Bool
  closed : Bool
deriving DecidableEq, Repr

/-- Embeds `QMainWindow.__init__()`: a fresh main window — empty title, no central
widget, not shown, not closed. -/
def QMainWindowBase : Dashboard :=
  { windowTitle := "", centralWidget := none, visible := false, closed := false }

/-- Embeds `Dashboard.__init__`, statement by statement:
`super().__init__()`; `self.setWindowTitle("RestEasy")`;
`button = QPushButton("RestEasy (WIP)")`;
`button.pressed.connect(self.close)`; `self.setCentralWidget(button)`;
`self.show()`. -/
def DashboardInit : Dashboard :=
  let s := QMainWindowBase
  let s := { s with windowTitle := "RestEasy" }
  let button := QPushButtonNew "RestEasy (WIP)"
  let button := button.connect "pressed" SlotAction.closeSelf
  let s := { s with centralWidget := some button }
  { s with visible := true }

/-- Embeds `QWidget.close()`: hides the window and marks it closed. -/
def Dashboard.close (w : Dashboard) : Dashboard :=
  { w with visible := false, closed := true }

/-- Running one connected slot on the window. The only slot in the program,
`self.close`, always succeeds; a slot that raised would surface as
`Except.error`. -/
def applySlot (w : Dashboard) : SlotAction → Except String Dashboard
  | SlotAction.closeSelf => Except.ok w.close

/-- Emitting the named signal of the central-widget button: every slot
connected to that signal runs in connection order; an exception in a slot
propagates. A signal with no connections leaves the window unchanged. -/
def Dashboard.emitButtonSignal (w : Dashboard) (sig : String) : Except String Dashboard :=
  match w.centralWidget with
  | none => Except.ok w
  | some b =>
      (b.connections.filter (fun c => c.1 = sig)).foldlM
        (fun s c => applySlot s c.2) w

/-- Number of interactive controls contained in the window: the central
widget is the only child the constructor installs. -/
def Dashboard.controlCount (w : Dashboard) : Nat :=
  match w.centralWidget with
  | none => 0
  | some _ => 1

/-! ## Module-level import order in `__main__.py`

The module executes, in order: `import sys`; `import gi`;
`from gi.repository import GLib, Gtk`; `gi.require_version("Gtk", "4.0")`;
the class definition; the `__main__` guard. The gi state tracks which
version pins are registered and, once `Gtk` has been imported, which pin
(if any) was in effect at that moment. -/

/-- One top-level statement of `src/resteasy/__main__.py`. -/
inductive PyStmt where
  | importSysStmt
  | importGiStmt
  | fromGiImportStmt (names : List String)
  | requireVersionStmt (ns ver : String)
  | defineApplicationClass
  | mainGuardStmt
deriving DecidableEq, Repr

/-- State of the `gi` machinery while the module body executes: the version
pins registered by `gi.require_version`, and — once `Gtk` has been imported —
`some pin` where `pin` is the pin that was in effect at import time
(`none` meaning the import was unpinned). -/
structure GiState where
  pins : List (String × String)
  gtkImportedWithPin : Option (Option String)
deriving DecidableEq, Repr

/-- Looks up the registered pin for a namespace. -/
def lookupPin (pins : List (String × String)) (ns : String) : Option String :=
  (pins.find? (fun p => p.1 = ns)).map Prod.snd

/-- Executes one top-level statement against the gi state: importing `Gtk`
records the pin currently in effect (imports are idempotent);
`gi.require_version` registers a pin; the other statements do not touch the
gi state. -/
def execStmt (s : GiState) : PyStmt → GiState
  | PyStmt.fromGiImportStmt names =>
      if names.contains "Gtk" && s.gtkImportedWithPin.isNone then
        { s with gtkImportedWithPin := some (lookupPin s.pins "Gtk") }
      else s
  | PyStmt.requireVersionStmt ns ver => { s with pins := s.pins ++ [(ns, ver)] }
  | _ => s

/-- The top-level statements of `src/resteasy/__main__.py`, in source
order. -/
def mainModuleStmts : List PyStmt :=
  [PyStmt.importSysStmt,
   PyStmt.importGiStmt,
   PyStmt.fromGiImportStmt ["GLib", "Gtk"],
   PyStmt.requireVersionStmt "Gtk" "4.0",
   PyStmt.defineApplicationClass,
   PyStmt.mainGuardStmt]

/-- The gi state after the whole module body has executed. -/
def moduleFinalState : GiState :=
  mainModuleStmts.foldl execStmt { pins := [], gtkImportedWithPin := none }

/-- State of the gi machinery with the loaded version tracked: the registered
version pins, and the Gtk version actually loaded once the import has run. -/
structure GiLoadState where
  pins : List (String × String)
  gtkLoadedVersion : Option String
deriving DecidableEq, Repr

/-- Embeds fallible execution of one top-level statement of the module.
`availableDefault` is the Gtk version that an unpinned
`from gi.repository import Gtk` loads in the hosting environment. Importing
`Gtk` loads the pinned version when a pin is registered and the environment
default otherwise (imports are idempotent); `gi.require_version` raises
`ValueError` when the namespace is already loaded with a different version,
and registers the pin otherwise; the remaining statements cannot raise. -/
def execStmtE (availableDefault : String) (s : GiLoadState) :
    PyStmt → Except String GiLoadState
  | PyStmt.fromGiImportStmt names =>
      if names.contains "Gtk" && s.gtkLoadedVersion.isNone then
        match lookupPin s.pins "Gtk" with
        | some v => Except.ok { s with gtkLoadedVersion := some v }
        | none => Except.ok { s with gtkLoadedVersion := some availableDefault }
      else Except.ok s
  | PyStmt.requireVersionStmt ns ver =>
      if ns = "Gtk" then
        match s.gtkLoadedVersion with
        | some loaded =>
            if loaded = ver then
              Except.ok { s with pins := s.pins ++ [(ns, ver)] }
            else
              Except.error
                ("ValueError: Namespace Gtk is already loaded with version " ++ loaded)
        | none => Except.ok { s with pins := s.pins ++ [(ns, ver)] }
      else Except.ok { s with pins := s.pins ++ [(ns, ver)] }
  | _ => Except.ok s

/-- Runs a list of top-level statements, stopping at the first raise. -/
def runStmtsE (availableDefault : String) (s : GiLoadState) :
    List PyStmt → Except String GiLoadState
  | [] => Except.ok s
  | st :: rest =>
      match execStmtE availableDefault s st with
      | Except.error e => Except.error e
      | Except.ok s1 => runStmtsE availableDefault s1 rest

/-- Executes the whole module body of `__main__.py` in an environment whose
unpinned Gtk import loads `availableDefault`. -/
def runModuleBody (availableDefault : String) : Except String GiLoadState :=
  runStmtsE availableDefault { pins := [], gtkLoadedVersion := none } mainModuleStmts

/-- Instantiates `MyApplication()` including the module-level imports it
depends on: the module body executes first (and can raise), then the
constructor body runs. -/
def importThenInit (availableDefault : String) (g : GLibGlobals) :
    Except String (GtkApp × GLibGlobals) :=
  match runModuleBody availableDefault with
  | Except.error e => Except.error e
  | Except.ok _ => MyApplicationInit g

/-! ## The external world and the event system

Neither source file contains a statement that reads or writes a file, a
network port, an environment variable, or any persisted store, so every
embedded operation is given the external world unchanged and hands it back
unchanged; the theorem below makes that frame condition explicit over
arbitrary event sequences. -/

/-- External state outside the two shells: file system, network, environment
variables. -/
structure World where
  files : List (String × String)
  network : List String
  env : List (String × String)
deriving DecidableEq, Repr

/-- The combined state of both shells: the GLib globals, the optional Shell A
application object, and the Shell B windows constructed so far. -/
structure SystemState where
  glib : GLibGlobals
  appA : Option GtkApp
  shellB : List Dashboard
deriving DecidableEq, Repr

/-- The operations either shell can perform: constructing `MyApplication`,
Gtk activation, constructing a `Dashboard`, and pressing the button of the
`i`-th dashboard. -/
inductive ShellEvent where
  | initA
  | activateA
  | constructB
  | pressB (i : Nat)
deriving DecidableEq, Repr

/-- One step of the event loop: dispatches the event to the corresponding
source operation, threading the external world through it. -/
def stepEvent : World × SystemState → ShellEvent → World × SystemState
  | (w, s), ShellEvent.initA =>
      match MyApplicationInit s.glib with
      | Except.ok (app, g) => (w, { s with glib := g, appA := some app })
      | Except.error _ => (w, s)
  | (w, s), ShellEvent.activateA =>
      match s.appA with
      | some app => (w, { s with appA := some (MyApplicationDoActivate app) })
      | none => (w, s)
  | (w, s), ShellEvent.constructB =>
      (w, { s with shellB := s.shellB ++ [DashboardInit] })
  | (w, s), ShellEvent.pressB i =>
      match s.shellB[i]? with
      | some d =>
          match d.emitButtonSignal "pressed" with
          | Except.ok d1 => (w, { s with shellB := s.shellB.set i d1 })
          | Except.error _ => (w, s)
      | none => (w, s)

/-- Runs a whole sequence of events from a starting world and state. -/
def runEvents (ws : World × SystemState) (es : List ShellEvent) : World × SystemState :=
  es.foldl stepEvent ws

/-- Number of Shell B windows that are currently shown. -/
def shellBShownWindows (ds : List Dashboard) : Nat :=
  (ds.filter (fun d => d.visible)).length

/-! ## Helper lemmas -/

/-- Constructing `MyApplication` always succeeds: the application identifier
passes the validity check, so the result is the fresh application object
together with the updated GLib globals. -/
theorem myAppInit_eval (g : GLibGlobals) :
    MyApplicationInit g = Except.ok (app0, GLibSetApplicationName g "RestEasy") := rfl

/-- Evaluates the module body in an arbitrary environment: because the
unpinned `Gtk` import runs before `gi.require_version("Gtk", "4.0")`, the
body succeeds exactly when the environment default is `4.0`, and otherwise
raises `ValueError` from `gi.require_version`. -/
theorem runModuleBody_eval (v : String) :
    runModuleBody v =
      if v = "4.0" then
        Except.ok { pins := [("Gtk", "4.0")], gtkLoadedVersion := some "4.0" }
      else
        Except.error
          ("ValueError: Namespace Gtk is already loaded with version " ++ v) := by
  by_cases hv : v = "4.0"
  · subst hv
    rfl
  · simp only [runModuleBody, mainModuleStmts, runStmtsE, execStmtE, lookupPin,
      List.contains_cons, List.find?, Option.isNone_none, Option.map_none,
      Bool.and_true, if_true, hv, if_false, if_neg hv]
    simp [hv]

/-- Each `do_activate` invocation adds exactly one shown window. -/
theorem shownWindows_doActivate (app : GtkApp) :
    (MyApplicationDoActivate app).shownWindows = app.shownWindows + 1 := by
  simp [MyApplicationDoActivate, GtkApp.shownWindows, GtkApplicationWindowNew,
    GtkWindow.present, List.filter_append]

/-- After `n` invocations of `do_activate`, the number of shown windows has
grown by `n`. -/
theorem shownWindows_activateN (app : GtkApp) (n : Nat) :
    (activateN app n).shownWindows = app.shownWindows + n := by
  induction n with
  | zero => rfl
  | succ n ih => rw [activateN, shownWindows_doActivate, ih, Nat.add_assoc]

/-- One event-loop step never changes the external world: every operation of
either shell is free of file, network and environment effects. -/
theorem stepEvent_world (ws : World × SystemState) (e : ShellEvent) :
    (stepEvent ws e).1 = ws.1 := by
  obtain ⟨w, s⟩ := ws
  cases e with
  | initA => dsimp [stepEvent]; split <;> rfl
  | activateA => dsimp [stepEvent]; split <;> rfl
  | constructB => rfl
  | pressB i =>
      dsimp [stepEvent]
      split
      · split <;> rfl
      · rfl

/-! ## The claims -/

/-- C1: the claim states that after `activate()` has executed, exactly one
window exists, owned by the application, with title exactly `"RestEasy"`.
Counterexample: on the application object actually produced by
`MyApplication()`, the single window created by `do_activate` has title
`"Hello, RestEasy!"`, not `"RestEasy"`. -/
theorem c1_title_counterexample :
    MyApplicationInit initialGlobals
        = Except.ok (app0, { application_name := some "RestEasy" }) ∧
    (MyApplicationDoActivate app0).windows.map GtkWindow.title = ["Hello, RestEasy!"] ∧
    ¬ (MyApplicationDoActivate app0).windows.map GtkWindow.title = ["RestEasy"] := by
  refine ⟨rfl, rfl, ?_⟩
  decide

/-- C1 (amended): after `activate()` has executed on the application object
produced by `MyApplication()`, exactly one window exists, owned by the
application, visible, and its title is the literal `"Hello, RestEasy!"`. -/
theorem c1_window_after_activate (g : GLibGlobals) (app : GtkApp) (g1 : GLibGlobals)
    (h : MyApplicationInit g = Except.ok (app, g1)) :
    (MyApplicationDoActivate app).windows.length = 1 ∧
    ∀ w ∈ (MyApplicationDoActivate app).windows,
      w.application = some "com.resteasy.RestEasy" ∧
      w.title = "Hello, RestEasy!" ∧ w.visible = true := by
  rw [myAppInit_eval] at h
  simp only [Except.ok.injEq, Prod.mk.injEq] at h
  obtain ⟨rfl, -⟩ := h
  decide

/-- C1 witness: the amended statement holds at the concrete startup state. -/
theorem c1_window_after_activate_witness :
    (MyApplicationDoActivate app0).windows.length = 1 ∧
    ∀ w ∈ (MyApplicationDoActivate app0).windows,
      w.application = some "com.resteasy.RestEasy" ∧
      w.title = "Hello, RestEasy!" ∧ w.visible = true :=
  c1_window_after_activate initialGlobals app0 { application_name := some "RestEasy" } rfl

/-- C2: the claim states that the signal wired during construction is the
activation signal named `"activated"`, and that triggering it closes the
window. Counterexample: the only connection made during construction is on
the signal named `"pressed"`, and emitting `"activated"` on the freshly
constructed dashboard runs no slot at all — the window stays open and
unclosed, contradicting the claimed transition to a closed state. -/
theorem c2_activated_counterexample :
    DashboardInit.centralWidget.map (fun b => b.connections.map Prod.fst)
        = some ["pressed"] ∧
    "pressed" ≠ "activated" ∧
    DashboardInit.emitButtonSignal "activated" = Except.ok DashboardInit ∧
    DashboardInit.closed = false := by
  refine ⟨rfl, by decide, rfl, rfl⟩

/-- C2 (amended): the signal wired during construction is the `pressed`
signal of the button; emitting it transitions the freshly constructed window
to a closed (and hidden) state, and no exception is raised — the emission
returns `Except.ok`. -/
theorem c2_press_closes_without_exception :
    DashboardInit.emitButtonSignal "pressed" = Except.ok DashboardInit.close ∧
    DashboardInit.close.closed = true ∧
    DashboardInit.close.visible = false := by
  refine ⟨rfl, rfl, rfl⟩

/-- C3: the claim states that after any number of `activate()` invocations on
Shell A, at most one window is shown. Counterexample: starting from the
application object produced by `MyApplication()`, two invocations of
`do_activate` leave two shown windows. -/
theorem c3_two_activations_counterexample :
    MyApplicationInit initialGlobals
        = Except.ok (app0, { application_name := some "RestEasy" }) ∧
    (activateN app0 2).shownWindows = 2 ∧
    ¬ (activateN app0 2).shownWindows ≤ 1 := by
  refine ⟨rfl, rfl, by decide⟩

/-- C3 (amended): when `activate()` is invoked at most once on Shell A — the
documented lifecycle — at most one Shell A window is shown; a single
construction of Shell B shows exactly one window, and pressing its button
brings that count to zero, so the bound also holds afterwards. In general
Shell A shows exactly one window per `activate()` invocation. -/
theorem c3_at_most_one_window_per_shell
    (g : GLibGlobals) (app : GtkApp) (g1 : GLibGlobals) (n : Nat)
    (h : MyApplicationInit g = Except.ok (app, g1)) (hn : n ≤ 1) :
    (activateN app n).shownWindows ≤ 1 ∧
    (activateN app n).shownWindows = n ∧
    shellBShownWindows [DashboardInit] = 1 ∧
    shellBShownWindows [DashboardInit.close] = 0 := by
  rw [myAppInit_eval] at h
  simp only [Except.ok.injEq, Prod.mk.injEq] at h
  obtain ⟨rfl, -⟩ := h
  have happ0 : app0.shownWindows = 0 := rfl
  refine ⟨?_, ?_, rfl, rfl⟩
  · rw [shownWindows_activateN, happ0, Nat.zero_add]
    exact hn
  · rw [shownWindows_activateN, happ0, Nat.zero_add]

/-- C3 witness: the amended statement holds at one activation of the concrete
startup state. -/
theorem c3_at_most_one_window_per_shell_witness :
    (activateN app0 1).shownWindows ≤ 1 ∧
    (activateN app0 1).shownWindows = 1 ∧
    shellBShownWindows [DashboardInit] = 1 ∧
    shellBShownWindows [DashboardInit.close] = 0 :=
  c3_at_most_one_window_per_shell initialGlobals app0
    { application_name := some "RestEasy" } 1 rfl (by decide)

/-- C4: constructing a `Dashboard` produces exactly one window — the single
`Dashboard` value returned — whose title is the literal `"RestEasy"` and
which contains exactly one interactive control (the central-widget button),
labeled with the literal `"RestEasy (WIP)"`. -/
theorem c4_dashboard_contents :
    DashboardInit.windowTitle = "RestEasy" ∧
    DashboardInit.controlCount = 1 ∧
    DashboardInit.centralWidget.map QPushButton.text = some "RestEasy (WIP)" := by
  refine ⟨rfl, rfl, rfl⟩

/-- C5: the claim states that instantiating the Shell A application object,
including the module-level imports it depends on, never raises.
Counterexample: in an environment whose unpinned
`from gi.repository import Gtk` loads version `3.0`, the subsequent
`gi.require_version("Gtk", "4.0")` raises `ValueError`, so instantiation
including the imports fails. -/
theorem c5_import_raises_counterexample :
    importThenInit "3.0" initialGlobals
      = Except.error "ValueError: Namespace Gtk is already loaded with version 3.0" := by
  rfl

/-- C5 (amended): the constructor body of `MyApplication()` itself never
raises — from any GLib global state it returns successfully; but
instantiation including the module-level imports succeeds exactly when the
unpinned Gtk import loads version `4.0`, and otherwise raises `ValueError`
from `gi.require_version("Gtk", "4.0")`, which runs only after the import. -/
theorem c5_raises_only_on_gtk_version_mismatch (v : String) (g : GLibGlobals) :
    (∀ g2 : GLibGlobals, ∃ app g1, MyApplicationInit g2 = Except.ok (app, g1)) ∧
    ((∃ app g1, importThenInit v g = Except.ok (app, g1)) ↔ v = "4.0") := by
  constructor
  · intro g2
    exact ⟨app0, GLibSetApplicationName g2 "RestEasy", myAppInit_eval g2⟩
  · rw [importThenInit, runModuleBody_eval]
    by_cases hv : v = "4.0"
    · subst hv
      refine ⟨fun _ => rfl, fun _ => ?_⟩
      rw [if_pos rfl, myAppInit_eval]
      exact ⟨app0, GLibSetApplicationName g "RestEasy", rfl⟩
    · simp only [if_neg hv]
      constructor
      · rintro ⟨app, g1, h⟩
        exact absurd h (by simp)
      · intro h
        exact absurd h hv

/-- C6: whatever application object `MyApplication()` returns declares the
application identifier `"com.resteasy.RestEasy"`. -/
theorem c6_application_id (g : GLibGlobals) (app : GtkApp) (g1 : GLibGlobals)
    (h : MyApplicationInit g = Except.ok (app, g1)) :
    app.application_id = "com.resteasy.RestEasy" := by
  rw [myAppInit_eval] at h
  simp only [Except.ok.injEq, Prod.mk.injEq] at h
  obtain ⟨rfl, -⟩ := h
  rfl

/-- C6 witness: the identifier of the concrete constructed application. -/
theorem c6_application_id_witness :
    app0.application_id = "com.resteasy.RestEasy" :=
  c6_application_id initialGlobals app0 { application_name := some "RestEasy" } rfl

/-- C7: the `Dashboard` constructor ends with `self.show()`, so the window is
visible the moment construction returns, while a bare `QMainWindow` starts
hidden — no separate show step by the caller is needed. -/
theorem c7_visible_on_construction :
    DashboardInit.visible = true ∧ QMainWindowBase.visible = false := by
  refine ⟨rfl, rfl⟩

/-- C8: the `__main__` block forwards the process arguments unchanged to the
`run` call of the application and passes the value `run` returns to
`sys.exit`, for every behaviour of the toolkit-provided `run` and every
argument vector. -/
theorem c8_main_forwards_args_and_exit (runA : List String → Int) (argv : List String) :
    (shellAMain runA argv).argsPassedToRun = argv ∧
    (shellAMain runA argv).exitCode = runA argv := by
  refine ⟨rfl, rfl⟩

/-- C9: no operation of either shell — constructing `MyApplication`,
`do_activate`, constructing a `Dashboard`, pressing its button — nor any
sequence of them dispatched by the event loop, reads or writes the external
world: files, network and environment are unchanged in every reachable
state. -/
theorem c9_no_external_effects (w : World) (s : SystemState) (es : List ShellEvent) :
    (runEvents (w, s) es).1 = w := by
  induction es generalizing w s with
  | nil => rfl
  | cons e es ih =>
      have h1 : runEvents (w, s) (e :: es) = runEvents (stepEvent (w, s) e) es := rfl
      have h2 := stepEvent_world (w, s) e
      rcases hst : stepEvent (w, s) e with ⟨w1, s1⟩
      rw [hst] at h1 h2
      rw [h1, ih w1 s1]
      exact h2

/-- C10: in the module body of `__main__.py`, the statement
`gi.require_version("Gtk", "4.0")` (position 3) executes only after
`from gi.repository import GLib, Gtk` (position 2) has already run, so `Gtk`
is imported with no version pin in effect — unpinned import behaviour — even
though the pin for Gtk 4.0 is registered by the end of the module. -/
theorem c10_require_version_after_import :
    mainModuleStmts[2]? = some (PyStmt.fromGiImportStmt ["GLib", "Gtk"]) ∧
    mainModuleStmts[3]? = some (PyStmt.requireVersionStmt "Gtk" "4.0") ∧
    moduleFinalState.gtkImportedWithPin = some none ∧
    lookupPin moduleFinalState.pins "Gtk" = some "4.0" := by
  refine ⟨rfl, rfl, rfl, rfl⟩
